import Mathlib

/-!
Verification of the installation-specific settings header
(`src/install_specific_settings.h`) of the Solar_Tracker_Positional_TFT
repository against its natural-language specification.

The header is a list of per-installation configuration constants for a
solar-tracker controller: an actuator travel limit, a movement deadband,
the site's geographic coordinates, and the coefficients of a cubic
regression mapping a desired azimuth to an actuator tick position.

Decimal floating-point literals of the source are carried here as exact
rationals; what a C `float` (IEEE-754 binary32) object can actually hold is
modelled by `Float32Representable` below.  Parts of the system that the
spec describes but that are absent from the supplied sources (the loader,
the consuming controller, the polynomial evaluation) are modelled from the
spec's words and marked as such in their doc comments.
-/

namespace SolarTracker

/-- The header line `const int FULL_WEST_POSITION = 2300;`. -/
def FULL_WEST_POSITION : ℤ := 2300

/-- The header line `const unsigned int MINIMUM_ACTUATOR_MOVEMENT = 10;`. -/
def MINIMUM_ACTUATOR_MOVEMENT : ℕ := 10

/-- The header line `const float LATITUDE = 33.11;` — the decimal literal as
an exact rational (33.11). -/
def LATITUDE : ℚ := 3311 / 100

/-- The header line `const float LONGITUDE = -116.98;` — the decimal literal
as an exact rational (-116.98). -/
def LONGITUDE : ℚ := -11698 / 100

/-- The header line `float X3 = -0.0010593807;` (note: not `const`) — the
decimal literal as an exact rational. -/
def X3 : ℚ := -10593807 / 10 ^ 10

/-- The header line `float X2 = 0.6189061527;` (note: not `const`) — the
decimal literal as an exact rational. -/
def X2 : ℚ := 6189061527 / 10 ^ 10

/-- The header line `float X1 = -96.9547832692;` (note: not `const`) — the
decimal literal as an exact rational. -/
def X1 : ℚ := -969547832692 / 10 ^ 10

/-- The header line `float X0 = 4516.4461316026;` (note: not `const`) — the
decimal literal as an exact rational. -/
def X0 : ℚ := 45164461316026 / 10 ^ 10

/-- The exact rational values an IEEE-754 binary32 C `float` can hold: a
sign-magnitude significand of at most 24 bits times a power of two.  The
exponent is left unbounded, so this set is a strict superset of the real
binary32 values; impossibility results proved against it hold a fortiori
for the real format. -/
def Float32Representable (q : ℚ) : Prop :=
  ∃ m e : ℤ, m.natAbs < 2 ^ 24 ∧ q = (m : ℚ) * 2 ^ e

/-- A fraction n/d whose denominator is divisible by 5 while its numerator
is not cannot be written as m·2^e, hence is not the value of any binary32
float. -/
theorem not_float32Representable_div (n : ℤ) (d : ℕ) (hd0 : ((d : ℚ)) ≠ 0)
    (h5d : (5 : ℤ) ∣ (d : ℤ)) (h5n : ¬ (5 : ℤ) ∣ n) :
    ¬ Float32Representable ((n : ℚ) / (d : ℚ)) := by
  rintro ⟨m, e, -, hq⟩
  have p5 : Prime (5 : ℤ) := by
    rw [Int.prime_iff_natAbs_prime]
    norm_num
  rcases le_or_lt 0 e with he | he
  · -- nonnegative exponent: n = m·2^k·d, so 5 ∣ d forces 5 ∣ n
    have hk : ((e.toNat : ℤ)) = e := Int.toNat_of_nonneg he
    rw [← hk, zpow_natCast, div_eq_iff hd0] at hq
    have hq' : n = m * 2 ^ e.toNat * (d : ℤ) := by exact_mod_cast hq
    exact h5n (hq' ▸ h5d.mul_left (m * 2 ^ e.toNat))
  · -- negative exponent: n·2^k = m·d, so 5 ∣ n·2^k, against primality of 5
    obtain ⟨k, hk⟩ : ∃ k : ℕ, e = -(k : ℤ) := ⟨(-e).toNat, by omega⟩
    have h2 : ((2 : ℚ) ^ k) ≠ 0 := by positivity
    rw [hk, zpow_neg, zpow_natCast, ← div_eq_mul_inv,
      div_eq_div_iff hd0 h2] at hq
    have hq' : n * 2 ^ k = m * (d : ℤ) := by exact_mod_cast hq
    have hdvd : (5 : ℤ) ∣ n * 2 ^ k := hq' ▸ h5d.mul_left m
    rcases p5.dvd_mul.mp hdvd with h | h
    · exact h5n h
    · exact absurd (p5.dvd_of_dvd_pow h) (by norm_num)

/-- C3 (counterexample).  The claim requires the stored `float LATITUDE` to
equal the decimal literal 33.11 with no precision loss; but a binary32 float
holds only values of the form m·2^e, and 33.11 = 3311/100 is not of that
form, so exact reproduction is impossible. -/
theorem C3_counterexample : ¬ Float32Representable LATITUDE := by
  have h : LATITUDE = ((3311 : ℤ) : ℚ) / ((100 : ℕ) : ℚ) := by
    norm_num [LATITUDE]
  rw [h]
  exact not_float32Representable_div 3311 100 (by norm_num) (by norm_num)
    (by norm_num)

/-- C3 (amended).  Loading the literal example record reproduces the integer
fields exactly (FULL_WEST_POSITION = 2300, MINIMUM_ACTUATOR_MOVEMENT = 10),
but none of the six decimal float literals (33.11, -116.98, -0.0010593807,
0.6189061527, -96.9547832692, 4516.4461316026) is representable as a
binary32 float, so each float field is reproduced only up to float
rounding, never exactly. -/
theorem C3_storage_rounding :
    FULL_WEST_POSITION = 2300 ∧ MINIMUM_ACTUATOR_MOVEMENT = 10 ∧
    ¬ Float32Representable LATITUDE ∧ ¬ Float32Representable LONGITUDE ∧
    ¬ Float32Representable X3 ∧ ¬ Float32Representable X2 ∧
    ¬ Float32Representable X1 ∧ ¬ Float32Representable X0 := by
  refine ⟨rfl, rfl, ?_, ?_, ?_, ?_, ?_, ?_⟩
  · have h : LATITUDE = ((3311 : ℤ) : ℚ) / ((100 : ℕ) : ℚ) := by
      norm_num [LATITUDE]
    rw [h]
    exact not_float32Representable_div 3311 100 (by norm_num) (by norm_num)
      (by norm_num)
  · have h : LONGITUDE = ((-11698 : ℤ) : ℚ) / ((100 : ℕ) : ℚ) := by
      norm_num [LONGITUDE]
    rw [h]
    exact not_float32Representable_div (-11698) 100 (by norm_num) (by norm_num)
      (by norm_num)
  · have h : X3 = ((-10593807 : ℤ) : ℚ) / ((10000000000 : ℕ) : ℚ) := by
      norm_num [X3]
    rw [h]
    exact not_float32Representable_div (-10593807) 10000000000 (by norm_num)
      (by norm_num) (by norm_num)
  · have h : X2 = ((6189061527 : ℤ) : ℚ) / ((10000000000 : ℕ) : ℚ) := by
      norm_num [X2]
    rw [h]
    exact not_float32Representable_div 6189061527 10000000000 (by norm_num)
      (by norm_num) (by norm_num)
  · have h : X1 = ((-969547832692 : ℤ) : ℚ) / ((10000000000 : ℕ) : ℚ) := by
      norm_num [X1]
    rw [h]
    exact not_float32Representable_div (-969547832692) 10000000000
      (by norm_num) (by norm_num) (by norm_num)
  · have h : X0 = ((45164461316026 : ℤ) : ℚ) / ((10000000000 : ℕ) : ℚ) := by
      norm_num [X0]
    rw [h]
    exact not_float32Representable_div 45164461316026 10000000000
      (by norm_num) (by norm_num) (by norm_num)

/-- C4.  The stored record satisfies the declared range invariants:
FULL_WEST_POSITION = 2300 ≥ 0, MINIMUM_ACTUATOR_MOVEMENT = 10 ≥ 0,
LATITUDE = 33.11 ∈ [-90, 90] and LONGITUDE = -116.98 ∈ [-180, 180]. -/
theorem C4_range_invariants :
    0 ≤ FULL_WEST_POSITION ∧ 0 ≤ MINIMUM_ACTUATOR_MOVEMENT ∧
    -90 ≤ LATITUDE ∧ LATITUDE ≤ 90 ∧
    -180 ≤ LONGITUDE ∧ LONGITUDE ≤ 180 ∧
    FULL_WEST_POSITION = 2300 ∧ MINIMUM_ACTUATOR_MOVEMENT = 10 ∧
    LATITUDE = 3311 / 100 ∧ LONGITUDE = -11698 / 100 := by
  refine ⟨by norm_num [FULL_WEST_POSITION], by norm_num,
    by norm_num [LATITUDE], by norm_num [LATITUDE],
    by norm_num [LONGITUDE], by norm_num [LONGITUDE], rfl, rfl, rfl, rfl⟩

/-! ### Syntactic view of the header: one declaration per line

`install_specific_settings.h` is a flat list of global declarations; each
carries a name, whether it is declared `const`, and its initializer. -/

/-- The value of one C declaration of the header: an `int`, an
`unsigned int`, or a `float` (whose decimal literal is carried exactly). -/
inductive CValue where
  | cint (v : ℤ)
  | cuint (v : ℕ)
  | cfloat (q : ℚ)
  deriving DecidableEq, Repr

/-- One global declaration of the header: its identifier, whether the
source declares it `const`, and its initializer value. -/
structure CDecl where
  name : String
  isConst : Bool
  value : CValue
  deriving DecidableEq, Repr

/-- The eight declarations of `src/install_specific_settings.h`, in source
order.  The four tracker-geometry constants are declared `const`; the four
polynomial coefficients are declared as plain (non-const) globals. -/
def installSpecificSettings : List CDecl :=
  [⟨"FULL_WEST_POSITION", true, .cint FULL_WEST_POSITION⟩,
   ⟨"MINIMUM_ACTUATOR_MOVEMENT", true, .cuint MINIMUM_ACTUATOR_MOVEMENT⟩,
   ⟨"LATITUDE", true, .cfloat LATITUDE⟩,
   ⟨"LONGITUDE", true, .cfloat LONGITUDE⟩,
   ⟨"X3", false, .cfloat X3⟩,
   ⟨"X2", false, .cfloat X2⟩,
   ⟨"X1", false, .cfloat X1⟩,
   ⟨"X0", false, .cfloat X0⟩]

/-- Does the header declare a global of the given name? -/
def declaresField (ds : List CDecl) (n : String) : Bool :=
  ds.any fun d => d.name == n

/-- The polynomial calibration schema is populated: all four regression
coefficients are declared. -/
def polynomialSchemaPopulated (ds : List CDecl) : Bool :=
  declaresField ds "X3" && declaresField ds "X2" &&
    declaresField ds "X1" && declaresField ds "X0"

/-- The two-point angle calibration schema is populated: both compass-angle
extremes are declared (under either casing convention). -/
def angleSchemaPopulated (ds : List CDecl) : Bool :=
  (declaresField ds "EAST_ANGLE" || declaresField ds "east_angle") &&
    (declaresField ds "WEST_ANGLE" || declaresField ds "west_angle")

/-! ### The settings record as process state

The header's globals, as the state an including translation unit sees.  A C
global declared `const` admits no assignment; a non-const global can be
assigned by any code that includes the header.  `Step` is exactly the set
of assignments the header's declarations make available. -/

/-- The run-time state of the header's eight globals. -/
structure SettingsState where
  full_west_position : ℤ
  minimum_actuator_movement : ℕ
  latitude : ℚ
  longitude : ℚ
  x3 : ℚ
  x2 : ℚ
  x1 : ℚ
  x0 : ℚ
  deriving DecidableEq, Repr

/-- The state right after the header's initializers have run. -/
def initialSettings : SettingsState :=
  { full_west_position := FULL_WEST_POSITION
    minimum_actuator_movement := MINIMUM_ACTUATOR_MOVEMENT
    latitude := LATITUDE
    longitude := LONGITUDE
    x3 := X3
    x2 := X2
    x1 := X1
    x0 := X0 }

/-- One mutation available to code including the header: assignment to one
of the globals the source does NOT declare `const` (`X3`, `X2`, `X1`,
`X0`).  The `const` globals admit no assignment, so no constructor touches
them. -/
inductive Step : SettingsState → SettingsState → Prop where
  | writeX3 (s : SettingsState) (v : ℚ) : Step s { s with x3 := v }
  | writeX2 (s : SettingsState) (v : ℚ) : Step s { s with x2 := v }
  | writeX1 (s : SettingsState) (v : ℚ) : Step s { s with x1 := v }
  | writeX0 (s : SettingsState) (v : ℚ) : Step s { s with x0 := v }

/-- The states of the settings globals reachable during a run: the initial
state followed by any number of available assignments. -/
def Reachable (s : SettingsState) : Prop :=
  Relation.ReflTransGen Step initialSettings s

/-- Reading a field of the settings state: returns the value together with
the (unchanged) state, making the absence of side effects explicit. -/
def readField (f : SettingsState → ℚ) (s : SettingsState) :
    ℚ × SettingsState :=
  (f s, s)

/-- No available assignment changes the four `const` globals. -/
theorem step_const_fields {s t : SettingsState} (h : Step s t) :
    t.full_west_position = s.full_west_position ∧
    t.minimum_actuator_movement = s.minimum_actuator_movement ∧
    t.latitude = s.latitude ∧ t.longitude = s.longitude := by
  cases h <;> exact ⟨rfl, rfl, rfl, rfl⟩

/-- In every reachable state the four `const` globals still hold their
initializer values. -/
theorem reachable_const_fields {s : SettingsState} (h : Reachable s) :
    s.full_west_position = FULL_WEST_POSITION ∧
    s.minimum_actuator_movement = MINIMUM_ACTUATOR_MOVEMENT ∧
    s.latitude = LATITUDE ∧ s.longitude = LONGITUDE := by
  induction h with
  | refl => exact ⟨rfl, rfl, rfl, rfl⟩
  | tail _ hstep ih =>
      obtain ⟨h1, h2, h3, h4⟩ := step_const_fields hstep
      exact ⟨h1.trans ih.1, h2.trans ih.2.1, h3.trans ih.2.2.1,
        h4.trans ih.2.2.2⟩

/-- C1 (counterexample).  The claim says no operation available to the rest
of the system can change any field; but `X3` is not declared `const`, so
the assignment `X3 = 0;` is available to any code including the header and
produces a state different from the loaded one. -/
theorem C1_counterexample :
    Step initialSettings { initialSettings with x3 := 0 } ∧
    { initialSettings with x3 := 0 } ≠ initialSettings :=
  ⟨Step.writeX3 initialSettings 0, fun h =>
    absurd (congrArg SettingsState.x3 h)
      (by norm_num [initialSettings, X3])⟩

/-- C1 (amended).  The fields FULL_WEST_POSITION, MINIMUM_ACTUATOR_MOVEMENT,
LATITUDE and LONGITUDE are declared `const` and no available operation
changes them; but the polynomial coefficients X3, X2, X1, X0 are declared
as non-const globals — they are exactly the header's non-const
declarations — and an available assignment changes X3. -/
theorem C1_const_fields_immutable :
    (∀ s t : SettingsState, Step s t →
      t.full_west_position = s.full_west_position ∧
      t.minimum_actuator_movement = s.minimum_actuator_movement ∧
      t.latitude = s.latitude ∧ t.longitude = s.longitude) ∧
    (installSpecificSettings.filter fun d => !d.isConst).map CDecl.name
      = ["X3", "X2", "X1", "X0"] ∧
    (∃ t, Step initialSettings t ∧ t.x3 ≠ initialSettings.x3) :=
  ⟨fun _ _ h => step_const_fields h, rfl,
    ⟨{ initialSettings with x3 := 0 }, Step.writeX3 initialSettings 0,
      by norm_num [initialSettings, X3]⟩⟩

/-- C5.  Exactly one of the two calibration schemas is populated in the
supplied record: all four polynomial coefficients are declared, and no
east/west angle field exists under any of the known spellings. -/
theorem C5_exactly_one_schema :
    polynomialSchemaPopulated installSpecificSettings = true ∧
    angleSchemaPopulated installSpecificSettings = false ∧
    (installSpecificSettings.all fun d =>
      !(d.name == "EAST_ANGLE" || d.name == "east_angle" ||
        d.name == "WEST_ANGLE" || d.name == "west_angle")) = true :=
  ⟨rfl, rfl, rfl⟩

/-- C8 (counterexample).  Two reads of the same field at two times within a
run need not return identical values: `X3` is a non-const global, and after
the available assignment `X3 = 0;` a read of `X3` differs from the read
before it. -/
theorem C8_counterexample :
    Step initialSettings { initialSettings with x3 := 0 } ∧
    (readField SettingsState.x3 { initialSettings with x3 := 0 }).1
      ≠ (readField SettingsState.x3 initialSettings).1 :=
  ⟨Step.writeX3 initialSettings 0, by norm_num [readField, initialSettings, X3]⟩

/-- C8 (amended).  Reading a field has no side effects (the state comes
back unchanged) and is deterministic in the state; reads of the four
`const` fields return the same values at any two reachable moments of any
run; but reads of the non-const coefficients at two different times may
differ when an assignment intervenes. -/
theorem C8_reads_pure :
    (∀ (f : SettingsState → ℚ) (s : SettingsState), (readField f s).2 = s) ∧
    (∀ (f : SettingsState → ℚ) (s t : SettingsState), s = t →
      readField f s = readField f t) ∧
    (∀ s : SettingsState, Reachable s →
      (readField SettingsState.latitude s).1 = LATITUDE ∧
      (readField SettingsState.longitude s).1 = LONGITUDE ∧
      s.full_west_position = FULL_WEST_POSITION ∧
      s.minimum_actuator_movement = MINIMUM_ACTUATOR_MOVEMENT) :=
  ⟨fun _ _ => rfl, fun _ _ _ h => h ▸ rfl,
    fun _ h =>
      ⟨(reachable_const_fields h).2.2.1, (reachable_const_fields h).2.2.2,
        (reachable_const_fields h).1, (reachable_const_fields h).2.1⟩⟩

/-! ### The external consumers, modelled from the spec

The header holds only data; the spec describes (out of the supplied
sources) a controller that evaluates the regression polynomial and
suppresses small moves. -/

/-- Modelled from the spec: the cubic regression mapping a desired azimuth
to an actuator tick position, `position = x3·az³ + x2·az² + x1·az + x0`.
The source header stores only the coefficients; the evaluation itself is
stated in the spec's data model and is absent from src/. -/
def position (x3 x2 x1 x0 az : ℚ) : ℚ :=
  x3 * az ^ 3 + x2 * az ^ 2 + x1 * az + x0

/-- Modelled from the spec: the deadband of the external controller, which
is absent from src/.  A desired signed move of `delta` ticks is suppressed
to 0 when its magnitude is below the configured minimum movement, and
issued unchanged otherwise. -/
def commandedMove (minMove : ℕ) (delta : ℤ) : ℤ :=
  if delta.natAbs < minMove then 0 else delta

/-- C2.  Evaluating the cubic at azimuth 0 yields exactly x0 — for every
coefficient set, and in particular for the set stored in this installation,
where the result is the stored literal 4516.4461316026. -/
theorem C2_cubic_at_zero :
    (∀ a b c d : ℚ, position a b c d 0 = d) ∧
    position X3 X2 X1 X0 0 = 45164461316026 / 10 ^ 10 := by
  constructor
  · intro a b c d
    simp [position]
  · norm_num [position, X0]

/-- C10.  The polynomial's output is not bounded by the actuator's
full-west limit: at azimuth 0 it evaluates to X0 = 4516.4461316026, which
is strictly greater than FULL_WEST_POSITION = 2300, so an unclamped
consumer can command a position beyond the configured extreme. -/
theorem C10_unclamped_exceeds_limit :
    position X3 X2 X1 X0 0 = X0 ∧
    (FULL_WEST_POSITION : ℚ) < position X3 X2 X1 X0 0 := by
  constructor
  · simp [position]
  · norm_num [position, X3, X2, X1, X0, FULL_WEST_POSITION]

/-- C7.  Every commanded move whose magnitude is smaller than the
configured minimum actuator movement (10 ticks in this installation) is
suppressed: the controller issues no nonzero move for it. -/
theorem C7_deadband_suppression (delta : ℤ)
    (h : delta.natAbs < MINIMUM_ACTUATOR_MOVEMENT) :
    commandedMove MINIMUM_ACTUATOR_MOVEMENT delta = 0 := by
  simp [commandedMove, h]

/-- C7 (witness).  A desired move of -7 ticks has magnitude below the
10-tick deadband and is suppressed to 0. -/
theorem C7_deadband_suppression_witness :
    commandedMove MINIMUM_ACTUATOR_MOVEMENT (-7) = 0 :=
  C7_deadband_suppression (-7) (by decide)

/-- C9.  The configured deadband is strictly positive, not merely
non-negative: MINIMUM_ACTUATOR_MOVEMENT = 10 > 0, so there exists a
nonzero commanded move (for instance 5 ticks) that is suppressed. -/
theorem C9_deadband_strictly_positive :
    0 < MINIMUM_ACTUATOR_MOVEMENT ∧ MINIMUM_ACTUATOR_MOVEMENT = 10 ∧
    ∃ delta : ℤ, delta ≠ 0 ∧
      commandedMove MINIMUM_ACTUATOR_MOVEMENT delta = 0 :=
  ⟨by decide, rfl, 5, by decide, by decide⟩

/-! ### The loader, modelled from the spec

The spec prescribes a load step that fails with a `ConfigurationError`
when required fields of the active schema variant are missing, when numeric
fields fall outside the invariant ranges, or when neither schema is
populated.  No loader exists in the supplied sources (the provisioning
mechanism is explicitly out of scope there), so it is modelled here from
the spec's words. -/

/-- Modelled from the spec: the error reported when a settings record fails
validation at load time. -/
inductive ConfigurationError where
  | missingField (field : String)
  | outOfRange (field : String)
  | missingSchema
  | ambiguousSchema
  deriving DecidableEq, Repr

/-- Modelled from the spec: a raw per-deployment settings record before
validation; every field is optional, since the observed variants differ in
which fields they carry. -/
structure RawRecord where
  full_west_position : Option ℤ
  minimum_actuator_movement : Option ℤ
  latitude : Option ℚ
  longitude : Option ℚ
  x3 : Option ℚ
  x2 : Option ℚ
  x1 : Option ℚ
  x0 : Option ℚ
  east_angle : Option ℚ
  west_angle : Option ℚ
  deriving DecidableEq, Repr

/-- Modelled from the spec: the two mutually exclusive calibration
strategies, as a tagged variant. -/
inductive Calibration where
  | polynomial (x3 x2 x1 x0 : ℚ)
  | twoPoint (east_angle west_angle : ℚ)
  deriving DecidableEq, Repr

/-- Modelled from the spec: a validated settings record. -/
structure LoadedSettings where
  full_west_position : ℤ
  minimum_actuator_movement : ℤ
  latitude : ℚ
  longitude : ℚ
  calibration : Calibration
  deriving DecidableEq, Repr

/-- Modelled from the spec: a required non-negative tick field — missing or
negative values are configuration errors. -/
def requireNonneg (field : String) (v : Option ℤ) :
    Except ConfigurationError ℤ :=
  match v with
  | none => .error (.missingField field)
  | some x => if 0 ≤ x then .ok x else .error (.outOfRange field)

/-- Modelled from the spec: a required float field constrained to the
closed interval [lo, hi]. -/
def requireRange (field : String) (lo hi : ℚ) (v : Option ℚ) :
    Except ConfigurationError ℚ :=
  match v with
  | none => .error (.missingField field)
  | some x => if lo ≤ x ∧ x ≤ hi then .ok x else .error (.outOfRange field)

/-- Modelled from the spec: the calibration part of the loader.  Exactly
one schema must be fully populated: all four polynomial coefficients with
no angle field, or both angles with no coefficient.  A record with neither
schema, a partially populated schema, or both schemas fails. -/
def loadCalibration (r : RawRecord) : Except ConfigurationError Calibration :=
  match r.x3, r.x2, r.x1, r.x0, r.east_angle, r.west_angle with
  | some a, some b, some c, some d, none, none => .ok (.polynomial a b c d)
  | none, none, none, none, some ea, some wa => .ok (.twoPoint ea wa)
  | none, none, none, none, none, none => .error .missingSchema
  | none, none, none, none, _, _ =>
      .error (.missingField "east_angle/west_angle")
  | some _, some _, some _, some _, _, _ => .error .ambiguousSchema
  | _, _, _, _, none, none => .error (.missingField "polynomial coefficient")
  | _, _, _, _, _, _ => .error .ambiguousSchema

/-- Modelled from the spec: the loader.  Validates each numeric field
against its invariant range and the calibration schema, and produces a
settings record only when everything passes. -/
def loadSettings (r : RawRecord) : Except ConfigurationError LoadedSettings :=
  match requireNonneg "full_west_position" r.full_west_position with
  | .error e => .error e
  | .ok fwp =>
    match requireNonneg "minimum_actuator_movement"
        r.minimum_actuator_movement with
    | .error e => .error e
    | .ok mam =>
      match requireRange "latitude" (-90) 90 r.latitude with
      | .error e => .error e
      | .ok lat =>
        match requireRange "longitude" (-180) 180 r.longitude with
        | .error e => .error e
        | .ok lon =>
          match loadCalibration r with
          | .error e => .error e
          | .ok cal =>
            .ok { full_west_position := fwp
                  minimum_actuator_movement := mam
                  latitude := lat
                  longitude := lon
                  calibration := cal }

/-- Declarative form of the calibration invariant: exactly one schema is
fully populated and the other is entirely absent. -/
def RawRecord.calibrationValid (r : RawRecord) : Prop :=
  ((∃ a, r.x3 = some a) ∧ (∃ a, r.x2 = some a) ∧ (∃ a, r.x1 = some a) ∧
    (∃ a, r.x0 = some a) ∧ r.east_angle = none ∧ r.west_angle = none) ∨
  (r.x3 = none ∧ r.x2 = none ∧ r.x1 = none ∧ r.x0 = none ∧
    (∃ a, r.east_angle = some a) ∧ (∃ a, r.west_angle = some a))

/-- Declarative form of the spec's record invariants: every required
numeric field is present and in range, and the calibration invariant
holds. -/
def RawRecord.valid (r : RawRecord) : Prop :=
  (∃ x, r.full_west_position = some x ∧ 0 ≤ x) ∧
  (∃ x, r.minimum_actuator_movement = some x ∧ 0 ≤ x) ∧
  (∃ x, r.latitude = some x ∧ -90 ≤ x ∧ x ≤ 90) ∧
  (∃ x, r.longitude = some x ∧ -180 ≤ x ∧ x ≤ 180) ∧
  r.calibrationValid

/-- A non-negative tick check succeeds exactly on a present, non-negative
value. -/
theorem requireNonneg_ok_iff (field : String) (v : Option ℤ) :
    (∃ x, requireNonneg field v = Except.ok x) ↔
      ∃ x, v = some x ∧ 0 ≤ x := by
  cases v with
  | none => simp [requireNonneg]
  | some y =>
      by_cases h : 0 ≤ y
      · simp [requireNonneg, h]
      · simp [requireNonneg, h]

/-- A range check succeeds exactly on a present, in-range value. -/
theorem requireRange_ok_iff (field : String) (lo hi : ℚ) (v : Option ℚ) :
    (∃ x, requireRange field lo hi v = Except.ok x) ↔
      ∃ x, v = some x ∧ lo ≤ x ∧ x ≤ hi := by
  cases v with
  | none => simp [requireRange]
  | some y =>
      by_cases h : lo ≤ y ∧ y ≤ hi
      · simp [requireRange, h]
      · constructor
        · rintro ⟨x, hx⟩
          simp only [requireRange, if_neg h] at hx
          cases hx
        · rintro ⟨x, hx, hr⟩
          injection hx with hyx
          subst hyx
          exact absurd hr h

/-- The calibration loader succeeds exactly on records satisfying the
calibration invariant. -/
theorem loadCalibration_ok_iff (r : RawRecord) :
    (∃ c, loadCalibration r = Except.ok c) ↔ r.calibrationValid := by
  obtain ⟨f, mm, la, lo, a3, a2, a1, a0, ea, wa⟩ := r
  cases a3 <;> cases a2 <;> cases a1 <;> cases a0 <;> cases ea <;> cases wa <;>
    simp [loadCalibration, RawRecord.calibrationValid]

/-- The full loader succeeds exactly when each stage succeeds. -/
theorem loadSettings_ok_iff_stages (r : RawRecord) :
    (∃ s, loadSettings r = Except.ok s) ↔
      ((∃ x, requireNonneg "full_west_position" r.full_west_position
          = Except.ok x) ∧
       (∃ x, requireNonneg "minimum_actuator_movement"
          r.minimum_actuator_movement = Except.ok x) ∧
       (∃ x, requireRange "latitude" (-90) 90 r.latitude = Except.ok x) ∧
       (∃ x, requireRange "longitude" (-180) 180 r.longitude
          = Except.ok x) ∧
       (∃ c, loadCalibration r = Except.ok c)) := by
  unfold loadSettings
  cases requireNonneg "full_west_position" r.full_west_position <;>
    cases requireNonneg "minimum_actuator_movement"
      r.minimum_actuator_movement <;>
      cases requireRange "latitude" (-90) 90 r.latitude <;>
        cases requireRange "longitude" (-180) 180 r.longitude <;>
          cases loadCalibration r <;> simp

/-- The loader succeeds exactly on valid records. -/
theorem loadSettings_ok_iff_valid (r : RawRecord) :
    (∃ s, loadSettings r = Except.ok s) ↔ r.valid := by
  rw [loadSettings_ok_iff_stages, requireNonneg_ok_iff, requireNonneg_ok_iff,
    requireRange_ok_iff, requireRange_ok_iff, loadCalibration_ok_iff]
  exact Iff.rfl

/-- C6.  Loading fails with a ConfigurationError exactly when the record is
invalid — a required field of the active schema variant missing, a numeric
field out of its invariant range, or neither schema populated — and on any
failure no settings record is produced. -/
theorem C6_load_validation :
    (∀ r : RawRecord, (∃ s, loadSettings r = Except.ok s) ↔ r.valid) ∧
    (∀ r : RawRecord, ¬ r.valid → ∃ e, loadSettings r = Except.error e) := by
  refine ⟨loadSettings_ok_iff_valid, fun r hv => ?_⟩
  cases h : loadSettings r with
  | error e => exact ⟨e, rfl⟩
  | ok s => exact absurd ((loadSettings_ok_iff_valid r).mp ⟨s, h⟩) hv

end SolarTracker
